import Mathlib

/-!
# Reflector-Ride-Maps-V2: verification of the map view controller

Shallow embedding of the bike-trip visualization front-end
(`src/app.js`, `src/config.js`, and the app variant embedded in
`src/generate-config.js`: `setupClickHandlers`, `loadAllTripData`,
`calculateAllTripStats`).

JavaScript numbers are modelled as exact rationals (`ℚ`); all the
arithmetic the claims exercise stays far from double-precision rounding
boundaries except where noted in doc comments.  Fallible fetches are
modelled with `Except`.  The MapLibre/Mapbox styling API is modelled as
explicit state: a paint record per layer, plus traces of restyle calls
where a claim is about the calls themselves.
-/

namespace RideMaps

/-- Value of a Mapbox color expression at one feature: either a named
color literal from a breakpoint table, or (in `interpolate` mode, for an
input strictly between two stops) an RGB blend of the two surrounding
colors with interpolation parameter `t ∈ (0,1)`.  The blend itself is
kept abstract: the claims only compare colors for equality. -/
inductive ColorValue where
  | named (c : String)
  | blend (c1 c2 : String) (t : ℚ)
deriving DecidableEq

/-- The shapes of Mapbox paint expressions this code builds:
`['interpolate', ['linear'], ['to-number', ['coalesce', ['get', prop], 0]], s0, c0, ...]`,
`['step', ['to-number', ['coalesce', ['get', prop], 0]], base, t1, c1, ...]`,
and plain color literals such as `'#FF6600'`. -/
inductive ColorExpression where
  | interpolateLinearCoalesce (prop : String) (stops : List (ℚ × String))
  | stepCoalesce (prop : String) (base : String) (steps : List (ℚ × String))
  | constColor (c : String)
deriving DecidableEq

/-- Mapbox `interpolate`/`linear` semantics: inputs at or below the first
stop clamp to the first output, inputs at or above the last stop clamp to
the last output, and inputs strictly between two stops blend the two
surrounding outputs. -/
def interpolateEval (v : ℚ) : List (ℚ × String) → ColorValue
  | [] => .named ""
  | [(_, c)] => .named c
  | (s1, c1) :: (s2, c2) :: rest =>
      if v ≤ s1 then .named c1
      else if v < s2 then .blend c1 c2 ((v - s1) / (s2 - s1))
      else interpolateEval v ((s2, c2) :: rest)

/-- Mapbox `step` semantics: the base output for inputs below the first
threshold, then the output of the greatest threshold not exceeding the
input. -/
def stepEval (v : ℚ) (base : String) : List (ℚ × String) → String
  | [] => base
  | (t, c) :: rest => if v < t then base else stepEval v c rest

/-- Evaluate a color expression on a feature, given its numeric
properties.  `['coalesce', ['get', prop], 0]` turns a missing property
into `0` before the lookup. -/
def evalColorExpression (e : ColorExpression) (props : String → Option ℚ) : ColorValue :=
  match e with
  | .interpolateLinearCoalesce p stops => interpolateEval ((props p).getD 0) stops
  | .stepCoalesce p base steps => .named (stepEval ((props p).getD 0) base steps)
  | .constColor c => .named c

/-- A feature whose only numeric property is `name`, with value `v`. -/
def singleProp (name : String) (v : ℚ) : String → Option ℚ :=
  fun p => if p = name then some v else none

/-- A feature with no numeric properties at all (the speed property is
absent/null). -/
def noProps : String → Option ℚ := fun _ => none

/-- `getSpeedColorExpression` from `src/app.js` (lines 34-62): the
trip-level coloring policy over the `Speed` property, in `gradient`
(interpolate) or `step` mode. -/
def getSpeedColorExpression (mode : String) : ColorExpression :=
  if mode = "gradient" then
    .interpolateLinearCoalesce "Speed"
      [(0, "#DC2626"), (5, "#F97316"), (8, "#FB923C"), (12, "#FACC15"),
       (16, "#BEF264"), (20, "#4ADE80"), (25, "#22C55E"), (30, "#059669")]
  else
    .stepCoalesce "Speed" "#DC2626"
      [(5, "#F97316"), (10, "#FACC15"), (15, "#BEF264"),
       (20, "#4ADE80"), (25, "#22C55E"), (30, "#059669")]

/-- `getAggregatedSpeedColorExpression` from `src/app.js` (lines 64-92):
the aggregated-level coloring policy over the `avg_speed` property. -/
def getAggregatedSpeedColorExpression (mode : String) : ColorExpression :=
  if mode = "gradient" then
    .interpolateLinearCoalesce "avg_speed"
      [(0, "#DC2626"), (5, "#F97316"), (8, "#FB923C"), (12, "#FACC15"),
       (16, "#BEF264"), (20, "#4ADE80"), (25, "#22C55E"), (30, "#059669")]
  else
    .stepCoalesce "avg_speed" "#DC2626"
      [(5, "#F97316"), (10, "#FACC15"), (15, "#BEF264"),
       (20, "#4ADE80"), (25, "#22C55E"), (30, "#059669")]

/-! ## Number formatting (the app variant embedded in `src/generate-config.js`) -/

/-- `Math.floor` on an exact rational. -/
def jsFloor (q : ℚ) : ℤ := ⌊q⌋

/-- `Math.round` on an exact rational (JavaScript rounds half up for the
non-negative values these stats paths produce). -/
def jsRound (q : ℚ) : ℤ := jsFloor (q + 1/2)

/-- JavaScript `%` (remainder) for the non-negative operands these stats
paths produce: `a - b * Math.floor(a / b)`. -/
def jsMod (a b : ℚ) : ℚ := a - b * jsFloor (a / b)

/-- Left-pad a string with the character `'0'` to the given length
(`String.prototype.padStart(len, '0')`). -/
def padZeros (len : ℕ) (s : String) : String :=
  if s.length < len then String.mk (List.replicate (len - s.length) '0') ++ s else s

/-- `Number.prototype.toFixed(digits)` on an exact non-negative rational:
scale by `10^digits`, round half up, and print with exactly `digits`
decimals.  (At every input a claim evaluates, the double-precision value
JavaScript actually holds rounds the same way.) -/
def toFixed (digits : ℕ) (q : ℚ) : String :=
  let scaled : ℕ := (jsRound (q * (10 : ℚ) ^ digits)).toNat
  Nat.repr (scaled / 10 ^ digits) ++ "." ++ padZeros digits (Nat.repr (scaled % 10 ^ digits))

/-- Popup distance line of `setupClickHandlers`
(`src/generate-config.js` line 249): `(totalDistance / 1000).toFixed(2)`. -/
def popupDistanceKmText (totalDistance : ℚ) : String :=
  toFixed 2 (totalDistance / 1000)

/-- Popup average speed of `setupClickHandlers` (line 250):
`totalTime > 0 ? ((totalDistance / 1000) / (totalTime / 3600)).toFixed(1) : 0`,
interpolated into the popup template (the number `0` prints as `"0"`). -/
def popupAvgSpeedText (totalDistance totalTime : ℚ) : String :=
  if totalTime > 0 then toFixed 1 ((totalDistance / 1000) / (totalTime / 3600)) else "0"

/-- Popup duration of `setupClickHandlers` (lines 252-254):
`Math.floor(totalTime / 60)` minutes, `Math.round(totalTime % 60)` seconds,
formatted `m:ss` with the seconds padded to two digits. -/
def popupDurationText (totalTime : ℚ) : String :=
  let durationMinutes := jsFloor (totalTime / 60)
  let durationSeconds := jsRound (jsMod totalTime 60)
  Nat.repr durationMinutes.toNat ++ ":" ++ padZeros 2 (Nat.repr durationSeconds.toNat)

/-- Summary distance of `loadAllTripData` (line 344):
`(totalDistance / 1000).toFixed(1)`. -/
def summaryDistanceKmText (totalDistance : ℚ) : String :=
  toFixed 1 (totalDistance / 1000)

/-- Summary average speed of `loadAllTripData` (line 345): the same
guarded expression as the popup path. -/
def summaryAvgSpeedText (totalDistance totalTime : ℚ) : String :=
  if totalTime > 0 then toFixed 1 ((totalDistance / 1000) / (totalTime / 3600)) else "0"

/-- Average speed of the (unused) `calculateAllTripStats` (line 405):
again the same guarded expression. -/
def calcAllTripAvgSpeedText (totalDistance totalTime : ℚ) : String :=
  if totalTime > 0 then toFixed 1 ((totalDistance / 1000) / (totalTime / 3600)) else "0"

/-- Summary duration of `loadAllTripData` (lines 347-351):
`Math.floor(totalTime / 3600)` hours and `Math.floor((totalTime % 3600) / 60)`
minutes, rendered `"Hh Mm"` when hours are positive and `"Mm"` otherwise. -/
def summaryDurationText (totalTime : ℚ) : String :=
  let totalHours := jsFloor (totalTime / 3600)
  let totalMinutes := jsFloor (jsMod totalTime 3600 / 60)
  if totalHours > 0 then
    Nat.repr totalHours.toNat ++ "h " ++ Nat.repr totalMinutes.toNat ++ "m"
  else
    Nat.repr totalMinutes.toNat ++ "m"

/-! ## Startup (`src/app.js` lines 1-18) -/

/-- The observable effects of the top of `src/app.js`: any alert shown,
any `console.error` written, and whether `new mapboxgl.Map(...)` is still
reached. -/
structure StartupResult where
  alerts : List String
  errorLogs : List String
  mapConstructed : Bool
deriving DecidableEq

/-- JavaScript falsiness of `CONFIG.MAPBOX_TOKEN` (a missing binding or
the empty string). -/
def jsFalsyToken (token : Option String) : Bool :=
  match token with
  | none => true
  | some s => s = ""

/-- `src/app.js` lines 6-18: if the token is falsy or equals the
placeholder `'YOUR_MAPBOX_TOKEN_HERE'`, show an alert and log an error;
either way fall through and construct the map. -/
def startup (token : Option String) : StartupResult :=
  if jsFalsyToken token || token == some "YOUR_MAPBOX_TOKEN_HERE" then
    { alerts := ["Please set your Mapbox token in config.js!"]
      errorLogs := ["Mapbox token not configured"]
      mapConstructed := true }
  else
    { alerts := [], errorLogs := [], mapConstructed := true }

/-! ## UI state and control bindings (`src/app.js` lines 94-331) -/

/-- The filter expressions this code installs:
`['>=', ['get', prop], k]`. -/
inductive MapFilter where
  | geGet (prop : String) (k : ℤ)
deriving DecidableEq

/-- Mapbox filter semantics on a feature with numeric properties: the
`['>=', ['get', prop], k]` filter admits the feature exactly when the
property is at least `k`. -/
def evalFilter (f : MapFilter) (props : String → ℚ) : Bool :=
  match f with
  | .geGet p k => decide ((k : ℚ) ≤ props p)

/-- Paint and layout state of one trip layer. -/
structure TripLayerPaint where
  lineColor : ColorExpression
  lineWidth : ℚ
  lineOpacity : ℚ
  visibility : String
deriving DecidableEq

/-- In-memory view state of the `src/app.js` controller: the module
variables (`tripLayers`, `speedMode`), the DOM control values the
handlers read back, and the map styling state the handlers write. -/
structure AppState where
  tripLayers : List String
  speedMode : String
  domSpeedMode : String
  tripFilterValue : String
  tripsChecked : Bool
  speedSegmentsChecked : Bool
  aggregatedChecked : Bool
  tripPaint : String → TripLayerPaint
  aggLineColor : ColorExpression
  aggVisibility : String
  aggFilter : Option MapFilter
  aggLayerPresent : Bool
  legendVisible : Bool
  minSamplesValueText : ℤ
  statTrips : ℕ

/-- The user events the control bindings of `src/app.js` react to. -/
inductive UIEvent where
  | tripFilterChange (v : String)
  | tripsToggle (checked : Bool)
  | speedSegmentsToggle (checked : Bool)
  | speedModeChange (m : String)
  | aggToggle (checked : Bool)
  | minSamplesInput (k : ℤ)

/-- `updateStats` (`src/app.js` lines 325-331). -/
def updateStatsOn (s : AppState) : AppState :=
  { s with statTrips := if s.tripFilterValue = "all" then s.tripLayers.length else 1 }

/-- One step of the `src/app.js` control bindings
(`setupTripControls` lines 183-246 and `setupAggregatedControls`
lines 277-297), as a transition on the view state. -/
def uiStep (s : AppState) (ev : UIEvent) : AppState :=
  match ev with
  | .tripFilterChange v =>
      let s1 : AppState :=
        { s with
          tripFilterValue := v
          tripPaint := fun id =>
            if id ∈ s.tripLayers then
              if v = "all" then
                { s.tripPaint id with visibility := "visible", lineOpacity := 2/5 }
              else if id = v then
                { s.tripPaint id with visibility := "visible", lineOpacity := 9/10 }
              else
                { s.tripPaint id with visibility := "none" }
            else s.tripPaint id }
      updateStatsOn s1
  | .tripsToggle c =>
      let vis := if c then "visible" else "none"
      { s with
        tripsChecked := c
        tripPaint := fun id =>
          if id ∈ s.tripLayers ∧ (s.tripFilterValue = "all" ∨ id = s.tripFilterValue) then
            { s.tripPaint id with visibility := vis }
          else s.tripPaint id }
  | .speedSegmentsToggle c =>
      if c then
        { s with
          speedSegmentsChecked := true
          tripPaint := fun id =>
            if id ∈ s.tripLayers then
              { s.tripPaint id with
                lineColor := getSpeedColorExpression s.speedMode, lineWidth := 3 }
            else s.tripPaint id
          legendVisible := true }
      else
        { s with
          speedSegmentsChecked := false
          tripPaint := fun id =>
            if id ∈ s.tripLayers then
              { s.tripPaint id with lineColor := .constColor "#FF6600", lineWidth := 2 }
            else s.tripPaint id
          legendVisible := false }
  | .speedModeChange m =>
      let s1 : AppState := { s with domSpeedMode := m, speedMode := m }
      let s2 : AppState :=
        if s1.speedSegmentsChecked then
          { s1 with
            tripPaint := fun id =>
              if id ∈ s1.tripLayers then
                { s1.tripPaint id with lineColor := getSpeedColorExpression m }
              else s1.tripPaint id }
        else s1
      if s2.aggregatedChecked then
        { s2 with aggLineColor := getAggregatedSpeedColorExpression m }
      else s2
  | .aggToggle c =>
      let s1 : AppState :=
        { s with
          aggregatedChecked := c
          aggVisibility := if c then "visible" else "none" }
      if c then
        { s1 with
          aggLineColor := getAggregatedSpeedColorExpression s1.domSpeedMode
          legendVisible := true }
      else s1
  | .minSamplesInput k =>
      { s with
        minSamplesValueText := k
        aggFilter := some (.geGet "sample_count" k) }

/-! ## Load handler (`src/app.js` lines 94-181) -/

/-- One entry of the tile source's `vector_layers` metadata. -/
structure VectorLayer where
  id : String
deriving DecidableEq

/-- The parsed TileJSON response: its declared vector layers. -/
structure TileJSON where
  vector_layers : List VectorLayer
deriving DecidableEq

/-- The parsed aggregated-routes GeoJSON: its feature count (nothing
else about the payload matters to the handler's control flow). -/
structure AggJSON where
  featureCount : ℕ
deriving DecidableEq

/-- View state before the load handler runs: no trip layers, gradient
mode, "all" trips selected, aggregated layer absent. -/
def initState : AppState :=
  { tripLayers := []
    speedMode := "gradient"
    domSpeedMode := "gradient"
    tripFilterValue := "all"
    tripsChecked := true
    speedSegmentsChecked := false
    aggregatedChecked := false
    tripPaint := fun _ =>
      { lineColor := .constColor "#FF6600", lineWidth := 2, lineOpacity := 2/5
        visibility := "visible" }
    aggLineColor := .constColor ""
    aggVisibility := ""
    aggFilter := none
    aggLayerPresent := false
    legendVisible := false
    minSamplesValueText := 0
    statTrips := 0 }

/-- The `map.on('load', ...)` handler of `src/app.js` (lines 94-181):
two independent try/catch blocks.  The first fetches the TileJSON,
stores the declared layer ids in `tripLayers` and adds one line layer
per trip (orange, width 2, opacity 0.4) and runs `updateStats`; on
failure it only logs.  The second fetches the aggregated GeoJSON and
adds the hidden aggregated layer with the gradient color expression; on
failure it only logs. -/
def loadHandler (tilesFetch : Except String TileJSON) (aggFetch : Except String AggJSON)
    (s0 : AppState) : AppState × List String :=
  let tripsPart : AppState × List String :=
    match tilesFetch with
    | .ok tj =>
        let ids := tj.vector_layers.map VectorLayer.id
        (updateStatsOn
          { s0 with
            tripLayers := ids
            tripPaint := fun id =>
              if id ∈ ids then
                { lineColor := .constColor "#FF6600", lineWidth := 2, lineOpacity := 2/5
                  visibility := "visible" }
              else s0.tripPaint id }, [])
    | .error e => (s0, ["Error loading trips: " ++ e])
  let aggPart : AppState × List String :=
    match aggFetch with
    | .ok _ =>
        ({ tripsPart.1 with
            aggLayerPresent := true
            aggLineColor := getAggregatedSpeedColorExpression "gradient"
            aggVisibility := "none" }, [])
    | .error e => (tripsPart.1, ["Error loading aggregated routes: " ++ e])
  (aggPart.1, tripsPart.2 ++ aggPart.2)

/-! ## Selection & highlight (the app variant embedded in
`src/generate-config.js`: `setupClickHandlers`, lines 193-296) -/

/-- Opacity and width of one trip layer in the selection machine. -/
structure SelPaint where
  lineOpacity : ℚ
  lineWidth : ℚ
deriving DecidableEq

/-- View state the selection handlers touch: the fixed layer list, the
`selectedTrip` module variable, each layer's paint, and the detail-row
visibility. -/
structure SelState where
  tripLayers : List String
  selectedTrip : Option String
  paint : String → SelPaint
  selectedTripRowVisible : Bool

/-- One `map.setPaintProperty` call issued by a selection handler. -/
inductive RestyleCall where
  | setOpacity (layerId : String) (v : ℚ)
  | setWidth (layerId : String) (v : ℚ)
deriving DecidableEq

/-- The per-layer click handler (lines 197-268): set `selectedTrip`,
restyle the clicked layer to opacity 1.0 / width 4 and every other trip
layer to opacity 0.15 / width 2, and show the detail row.  (The popup
contents it also builds are modelled by the formatting functions
above.) -/
def layerClick (clicked : String) (s : SelState) : SelState × List RestyleCall :=
  ({ s with
      selectedTrip := some clicked
      paint := fun id =>
        if id ∈ s.tripLayers then
          if id = clicked then { lineOpacity := 1, lineWidth := 4 }
          else { lineOpacity := 3/20, lineWidth := 2 }
        else s.paint id
      selectedTripRowVisible := true },
   s.tripLayers.flatMap fun id =>
     if id = clicked then [.setOpacity id 1, .setWidth id 4]
     else [.setOpacity id (3/20), .setWidth id 2])

/-- The map-wide click handler (lines 280-295): if the event was not
claimed by a layer handler (`e.preventDefault()`) and a trip is
selected, clear the selection, restore opacity 0.7 / width 3 on every
trip layer, and hide the detail row; otherwise do nothing. -/
def backgroundClick (defaultPrevented : Bool) (s : SelState) : SelState × List RestyleCall :=
  if !defaultPrevented && s.selectedTrip.isSome then
    ({ s with
        selectedTrip := none
        paint := fun id =>
          if id ∈ s.tripLayers then { lineOpacity := 7/10, lineWidth := 3 }
          else s.paint id
        selectedTripRowVisible := false },
     s.tripLayers.flatMap fun id => [.setOpacity id (7/10), .setWidth id 3])
  else (s, [])

/-- A click on a rendered feature of trip `clicked`: the layer handler
fires and calls `e.preventDefault()`, then the map-wide handler fires
and sees `defaultPrevented`. -/
def clickTripFeature (clicked : String) (s : SelState) : SelState × List RestyleCall :=
  let r1 := layerClick clicked s
  let r2 := backgroundClick true r1.1
  (r2.1, r1.2 ++ r2.2)

/-- A demonstration state with two trip layers in the no-selection
default style (opacity 0.7, width 3). -/
def demoSelState : SelState :=
  { tripLayers := ["trip_A", "trip_B"]
    selectedTrip := none
    paint := fun _ => { lineOpacity := 7/10, lineWidth := 3 }
    selectedTripRowVisible := false }

/-- Helper: compute a concrete rational floor from its two bounds. -/
lemma floor_of_bounds (q : ℚ) (z : ℤ) (h1 : (z : ℚ) ≤ q) (h2 : q < z + 1) :
    ⌊q⌋ = z := Int.floor_eq_iff.mpr ⟨h1, h2⟩

end RideMaps

namespace RideMaps

/-- C2: with totals distance 12345 m and time 1830 s, the popup path
shows distance "12.35" (2 decimals) and duration "30:30" (mm:ss), the
summary path shows distance "12.3" (1 decimal) and duration "30m" (hours
are zero), and both paths show average speed "24.3" km/h, computed as
(distance/1000)/(time/3600) rounded to 1 decimal. -/
theorem stats_formatting_example_12345m_1830s :
    popupDistanceKmText 12345 = "12.35" ∧
    popupDurationText 1830 = "30:30" ∧
    summaryDistanceKmText 12345 = "12.3" ∧
    summaryDurationText 1830 = "30m" ∧
    popupAvgSpeedText 12345 1830 = "24.3" ∧
    summaryAvgSpeedText 12345 1830 = "24.3" := by
  refine ⟨?_, ?_, ?_, ?_, ?_, ?_⟩
  · rw [popupDistanceKmText, toFixed, jsRound, jsFloor]
    rw [show ((12345:ℚ)/1000 * (10:ℚ)^(2:ℕ) + 1/2) = ((1235:ℤ):ℚ) by norm_num]
    rw [Int.floor_intCast]
    decide
  · simp only [popupDurationText, jsMod, jsRound, jsFloor]
    rw [show ((1830:ℚ)/60) = (61/2:ℚ) by norm_num]
    rw [floor_of_bounds (61/2) 30 (by norm_num) (by norm_num)]
    rw [show ((1830:ℚ) - 60 * ((30:ℤ):ℚ) + 1/2) = (61/2:ℚ) by norm_num]
    rw [floor_of_bounds (61/2) 30 (by norm_num) (by norm_num)]
    decide
  · rw [summaryDistanceKmText, toFixed, jsRound, jsFloor]
    rw [show ((12345:ℚ)/1000 * (10:ℚ)^(1:ℕ) + 1/2) = (12395/100:ℚ) by norm_num]
    rw [floor_of_bounds (12395/100) 123 (by norm_num) (by norm_num)]
    decide
  · simp only [summaryDurationText, jsMod, jsFloor]
    rw [show ((1830:ℚ)/3600) = (61/120:ℚ) by norm_num]
    rw [floor_of_bounds (61/120) 0 (by norm_num) (by norm_num)]
    rw [show (((1830:ℚ) - 3600 * ((0:ℤ):ℚ)) / 60) = (61/2:ℚ) by norm_num]
    rw [floor_of_bounds (61/2) 30 (by norm_num) (by norm_num)]
    decide
  · rw [popupAvgSpeedText, if_pos (by norm_num : (1830:ℚ) > 0), toFixed, jsRound, jsFloor]
    rw [show ((12345:ℚ)/1000 / ((1830:ℚ)/3600) * (10:ℚ)^(1:ℕ) + 1/2) = (29689/122 : ℚ) by
      norm_num]
    rw [floor_of_bounds (29689/122) 243 (by norm_num) (by norm_num)]
    decide
  · rw [summaryAvgSpeedText, if_pos (by norm_num : (1830:ℚ) > 0), toFixed, jsRound, jsFloor]
    rw [show ((12345:ℚ)/1000 / ((1830:ℚ)/3600) * (10:ℚ)^(1:ℕ) + 1/2) = (29689/122 : ℚ) by
      norm_num]
    rw [floor_of_bounds (29689/122) 243 (by norm_num) (by norm_num)]
    decide

/-- C10: in all three average-speed computations (popup path, summary
path, and the unused calculateAllTripStats path) the division by total
time happens only under the guard `totalTime > 0` — under that guard the
divisor `totalTime / 3600` is nonzero — and when total time is 0 the
displayed average speed is 0. -/
theorem avgSpeed_division_guarded (d t : ℚ) :
    (t > 0 →
      popupAvgSpeedText d t = toFixed 1 ((d / 1000) / (t / 3600)) ∧
      summaryAvgSpeedText d t = toFixed 1 ((d / 1000) / (t / 3600)) ∧
      calcAllTripAvgSpeedText d t = toFixed 1 ((d / 1000) / (t / 3600)) ∧
      t / 3600 ≠ 0) ∧
    (t = 0 →
      popupAvgSpeedText d t = "0" ∧
      summaryAvgSpeedText d t = "0" ∧
      calcAllTripAvgSpeedText d t = "0") := by
  constructor
  · intro ht
    refine ⟨?_, ?_, ?_, ?_⟩
    · rw [popupAvgSpeedText, if_pos ht]
    · rw [summaryAvgSpeedText, if_pos ht]
    · rw [calcAllTripAvgSpeedText, if_pos ht]
    · exact div_ne_zero (ne_of_gt ht) (by norm_num)
  · intro ht
    subst ht
    refine ⟨?_, ?_, ?_⟩
    · rw [popupAvgSpeedText, if_neg (by norm_num)]
    · rw [summaryAvgSpeedText, if_neg (by norm_num)]
    · rw [calcAllTripAvgSpeedText, if_neg (by norm_num)]

/-- C3: a negative speed value, and an absent/null one, get the same
color as speed 0 under both coloring policies (`getSpeedColorExpression`
and `getAggregatedSpeedColorExpression`), in gradient and step mode
alike. -/
theorem coloring_treats_negative_and_missing_as_zero (mode : String) (v : ℚ) (hv : v < 0) :
    evalColorExpression (getSpeedColorExpression mode) (singleProp "Speed" v) =
      evalColorExpression (getSpeedColorExpression mode) (singleProp "Speed" 0) ∧
    evalColorExpression (getAggregatedSpeedColorExpression mode) (singleProp "avg_speed" v) =
      evalColorExpression (getAggregatedSpeedColorExpression mode) (singleProp "avg_speed" 0) ∧
    evalColorExpression (getSpeedColorExpression mode) noProps =
      evalColorExpression (getSpeedColorExpression mode) (singleProp "Speed" 0) ∧
    evalColorExpression (getAggregatedSpeedColorExpression mode) noProps =
      evalColorExpression (getAggregatedSpeedColorExpression mode) (singleProp "avg_speed" 0) := by
  have h5 : v < 5 := lt_trans hv (by norm_num)
  by_cases h : mode = "gradient" <;>
    simp [getSpeedColorExpression, getAggregatedSpeedColorExpression, h, evalColorExpression,
      singleProp, noProps, interpolateEval, stepEval, hv.le, h5,
      show (0:ℚ) < 5 by norm_num]

/-- C3 witness: the trip-level gradient policy colors speed -1 like
speed 0. -/
theorem coloring_treats_negative_and_missing_as_zero_witness :
    evalColorExpression (getSpeedColorExpression "gradient") (singleProp "Speed" (-1)) =
      evalColorExpression (getSpeedColorExpression "gradient") (singleProp "Speed" 0) :=
  (coloring_treats_negative_and_missing_as_zero "gradient" (-1) (by norm_num)).1

/-- C4: toggling the aggregated checkbox off then on sets the aggregated
layer's line-color to the aggregated color expression for the currently
checked mode — also when the mode radio changed while the layer was
hidden — never a stale default. -/
theorem aggToggle_restores_current_mode_color (s : AppState) (m : String) :
    (uiStep (uiStep s (.aggToggle false)) (.aggToggle true)).aggLineColor =
      getAggregatedSpeedColorExpression s.domSpeedMode ∧
    (uiStep (uiStep (uiStep s (.aggToggle false)) (.speedModeChange m))
        (.aggToggle true)).aggLineColor =
      getAggregatedSpeedColorExpression m := by
  constructor <;> simp only [uiStep] <;> split_ifs <;> rfl

/-- C5: moving the minimum-sample-count slider to `k` installs on the
aggregated layer exactly the filter `['>=', ['get', 'sample_count'], k]`,
which admits a feature iff its `sample_count` is at least `k`. -/
theorem minSamplesSlider_installs_ge_filter (s : AppState) (k : ℤ) (props : String → ℚ) :
    (uiStep s (.minSamplesInput k)).aggFilter = some (.geGet "sample_count" k) ∧
    (evalFilter (MapFilter.geGet "sample_count" k) props = true ↔
      (k : ℚ) ≤ props "sample_count") :=
  ⟨rfl, by simp [evalFilter]⟩

/-- C6: a missing or placeholder Mapbox token produces a user-facing
alert and an error-log entry, and the map is still constructed (no
crash). -/
theorem bad_token_alerts_logs_and_continues (token : Option String)
    (h : token = none ∨ token = some "YOUR_MAPBOX_TOKEN_HERE") :
    (startup token).alerts ≠ [] ∧ (startup token).errorLogs ≠ [] ∧
    (startup token).mapConstructed = true := by
  rcases h with h | h <;> subst h <;> simp [startup, jsFalsyToken]

/-- C6 witness: the missing-token case. -/
theorem bad_token_alerts_logs_and_continues_witness :
    (startup none).alerts ≠ [] ∧ (startup none).errorLogs ≠ [] ∧
    (startup none).mapConstructed = true :=
  bad_token_alerts_logs_and_continues none (Or.inl rfl)

/-- C7: the two fetches are isolated failure domains: a failing trips
fetch is logged, leaves the trip layers absent, and still lets the
aggregated layer load; a failing aggregated fetch is logged and leaves
the already-loaded trip layers in place. -/
theorem load_failure_domains_isolated (e1 e2 : String) (tj : TileJSON) (aj : AggJSON) :
    ((loadHandler (.error e1) (.ok aj) initState).2 = ["Error loading trips: " ++ e1] ∧
     (loadHandler (.error e1) (.ok aj) initState).1.tripLayers = [] ∧
     (loadHandler (.error e1) (.ok aj) initState).1.aggLayerPresent = true ∧
     (loadHandler (.error e1) (.ok aj) initState).1.aggLineColor =
       getAggregatedSpeedColorExpression "gradient") ∧
    ((loadHandler (.ok tj) (.error e2) initState).2 =
       ["Error loading aggregated routes: " ++ e2] ∧
     (loadHandler (.ok tj) (.error e2) initState).1.tripLayers =
       tj.vector_layers.map VectorLayer.id ∧
     (loadHandler (.ok tj) (.error e2) initState).1.aggLayerPresent = false) := by
  simp [loadHandler, initState, updateStatsOn]

/-- C8: after a successful load the trip-layer identifiers are exactly
the ids declared in the tile source's `vector_layers` metadata, and no
control binding, selection click, or background click changes that
set. -/
theorem tripLayers_equal_metadata_and_never_change (tj : TileJSON)
    (a : Except String AggJSON) :
    (loadHandler (.ok tj) a initState).1.tripLayers = tj.vector_layers.map VectorLayer.id ∧
    (∀ (s : AppState) (ev : UIEvent), (uiStep s ev).tripLayers = s.tripLayers) ∧
    (∀ (ss : SelState) (id : String),
      (clickTripFeature id ss).1.tripLayers = ss.tripLayers) ∧
    (∀ (ss : SelState) (dp : Bool),
      (backgroundClick dp ss).1.tripLayers = ss.tripLayers) := by
  refine ⟨?_, ?_, ?_, ?_⟩
  · cases a <;> simp [loadHandler, initState, updateStatsOn]
  · intro s ev
    cases ev <;> simp only [uiStep, updateStatsOn] <;> split_ifs <;> rfl
  · intro ss id
    rfl
  · intro ss dp
    simp only [backgroundClick]
    split <;> rfl

/-- C9: clicking the map background with no trip selected issues no
restyle calls and leaves the whole view state unchanged. -/
theorem background_click_noop_without_selection (s : SelState)
    (h : s.selectedTrip = none) :
    backgroundClick false s = (s, []) := by
  simp [backgroundClick, h]

/-- C9 witness: the demonstration no-selection state. -/
theorem background_click_noop_without_selection_witness :
    backgroundClick false demoSelState = (demoSelState, []) :=
  background_click_noop_without_selection demoSelState rfl

/-- C1 counterexample: clicking a feature of `trip_A` and then one of
`trip_B` from the demonstration state leaves `trip_A` at opacity 0.15 /
width 2 (the faded style), not at the claimed default no-selection style
of opacity 0.7 / width 3. -/
theorem selection_second_click_counterexample :
    (((clickTripFeature "trip_B" (clickTripFeature "trip_A" demoSelState).1).1.paint
        "trip_A").lineOpacity = 3/20 ∧
     ((clickTripFeature "trip_B" (clickTripFeature "trip_A" demoSelState).1).1.paint
        "trip_A").lineWidth = 2) ∧
    ¬ (((clickTripFeature "trip_B" (clickTripFeature "trip_A" demoSelState).1).1.paint
          "trip_A").lineOpacity = 7/10 ∧
       ((clickTripFeature "trip_B" (clickTripFeature "trip_A" demoSelState).1).1.paint
          "trip_A").lineWidth = 3) := by
  norm_num [clickTripFeature, layerClick, backgroundClick, demoSelState,
    show ("trip_A" : String) ≠ "trip_B" from by decide]

/-- C1 amended: after clicking a feature of trip A and then a feature of
a distinct trip B, exactly one trip (B) is in the highlighted style
(opacity 1.0, width 4); trip A is in the faded style (opacity 0.15,
width 2), not the default no-selection style. -/
theorem selection_second_click_highlights_exactly_one (s : SelState) (A B : String)
    (hA : A ∈ s.tripLayers) (hB : B ∈ s.tripLayers) (hAB : A ≠ B) :
    ((clickTripFeature B (clickTripFeature A s).1).1.selectedTrip = some B) ∧
    (((clickTripFeature B (clickTripFeature A s).1).1.paint B).lineOpacity = 1 ∧
     ((clickTripFeature B (clickTripFeature A s).1).1.paint B).lineWidth = 4) ∧
    (((clickTripFeature B (clickTripFeature A s).1).1.paint A).lineOpacity = 3/20 ∧
     ((clickTripFeature B (clickTripFeature A s).1).1.paint A).lineWidth = 2) ∧
    (∀ id ∈ (clickTripFeature B (clickTripFeature A s).1).1.tripLayers,
      (((clickTripFeature B (clickTripFeature A s).1).1.paint id).lineOpacity = 1 ∧
       ((clickTripFeature B (clickTripFeature A s).1).1.paint id).lineWidth = 4) ↔ id = B) := by
  refine ⟨rfl, ?_, ?_, ?_⟩
  · simp [clickTripFeature, layerClick, backgroundClick, hB]
  · simp [clickTripFeature, layerClick, backgroundClick, hA, hAB]
  · intro id hid
    by_cases hidB : id = B
    · subst hidB
      simp [clickTripFeature, layerClick, backgroundClick, hB]
    · have hid' : id ∈ s.tripLayers := hid
      simp only [clickTripFeature, layerClick, backgroundClick]
      simp [hid', hidB]

/-- C1 amended witness: the demonstration state with trips `trip_A` and
`trip_B`. -/
theorem selection_second_click_highlights_exactly_one_witness :
    ((clickTripFeature "trip_B" (clickTripFeature "trip_A" demoSelState).1).1.selectedTrip =
      some "trip_B") ∧
    (((clickTripFeature "trip_B" (clickTripFeature "trip_A" demoSelState).1).1.paint
        "trip_B").lineOpacity = 1 ∧
     ((clickTripFeature "trip_B" (clickTripFeature "trip_A" demoSelState).1).1.paint
        "trip_B").lineWidth = 4) :=
  let h := selection_second_click_highlights_exactly_one demoSelState "trip_A" "trip_B"
    (by decide) (by decide) (by decide)
  ⟨h.1, h.2.1⟩

/-- C10 witness: the guarded branch at distance 12345 m, time 1830 s,
and the zero-time branch at time 0. -/
theorem avgSpeed_division_guarded_witness :
    popupAvgSpeedText 12345 1830 = toFixed 1 ((12345 / 1000) / (1830 / 3600)) ∧
    popupAvgSpeedText 12345 0 = "0" :=
  ⟨((avgSpeed_division_guarded 12345 1830).1 (by norm_num)).1,
   ((avgSpeed_division_guarded 12345 0).2 rfl).1⟩

end RideMaps
